import Mathlib

/-!
Verification of the handle type in src/objects/object.rs: the reference-holding
wrapper PyObject over a foreign, reference-counted runtime, with its
construction, clone, drop, pointer stealing, identity equality, casting and
formatting behaviour.

The foreign runtime is modelled as a refcount heap: a map from raw pointer
addresses to reference counts.  Side-effecting operations of the source are
embedded as explicit state passing on that heap.
-/

namespace PyO3

/-- Raw foreign pointer: an address identifying a foreign object; the
address 0 is the distinguished null sentinel. -/
abbrev Ptr := Nat

/-- Modelled from the spec: the state of the foreign runtime as far as this
layer observes it (module ffi is an external collaborator, not in src) —
the current reference count of every foreign object, indexed by pointer. -/
abbrev Heap := Ptr → Nat

/-- Modelled from the spec: the refcount primitive increment(ptr), ffi
function Py_INCREF, which adds one to the count of the pointed-to object. -/
def Py_INCREF (h : Heap) (p : Ptr) : Heap :=
  fun q => if q = p then h q + 1 else h q

/-- Modelled from the spec: the refcount primitive decrement(ptr), ffi
function Py_DECREF, which subtracts one from the count of the pointed-to
object. -/
def Py_DECREF (h : Heap) (p : Ptr) : Heap :=
  fun q => if q = p then h q - 1 else h q

/-- Modelled from the spec: the null-tolerant decrement, ffi function
Py_XDECREF — a no-op on the null pointer, otherwise Py_DECREF. -/
def Py_XDECREF (h : Heap) (p : Ptr) : Heap :=
  if p = 0 then h else Py_DECREF h p

/-- Modelled from the spec: the refcount query read_refcount(ptr), ffi
function Py_REFCNT. -/
def Py_REFCNT (h : Heap) (p : Ptr) : Nat := h p

/-- Modelled from the spec: the session token Python, proving an active
connection to the foreign runtime (module python is not in src; the token
is an opaque zero-sized marker, modelled as a tagged value so that distinct
sessions are distinguishable in statements). -/
structure Python where
  token : Nat
  deriving DecidableEq

/-- The handle from src/objects/object.rs: owns one reference to a foreign
object.  Field ptr mirrors the NonZero raw pointer (not null except in the
transient emptied state produced by the destructor under the
unsafe_no_drop_flag attribute), field py the session token. -/
structure PyObject where
  ptr : Ptr
  py : Python
  deriving DecidableEq

/-- Drop impl for PyObject (object.rs lines 18-24): calls Py_XDECREF on the
stored pointer.  Under the unsafe_no_drop_flag attribute the compiler zeroes
the value once the destructor has run, so the post-drop value is returned
with ptr = 0: a second implicit destructor invocation then hits the null
case of Py_XDECREF and changes nothing. -/
def PyObject.drop (h : Heap) (o : PyObject) : Heap × PyObject :=
  (Py_XDECREF h o.ptr, { o with ptr := 0 })

/-- ToPythonPointer.as_ptr for PyObject (object.rs lines 81-84). -/
def PyObject.as_ptr (o : PyObject) : Ptr := o.ptr

/-- ToPythonPointer.steal_ptr for PyObject (object.rs lines 86-92): reads
the pointer, then mem::forget(self) suppresses the destructor, so no
refcount call is ever made for this handle — the heap is unchanged. -/
def PyObject.steal_ptr (h : Heap) (o : PyObject) : Ptr × Heap :=
  (o.ptr, h)

/-- Clone impl for PyObject (object.rs lines 26-32): Py_INCREF on the stored
pointer, then a new handle with the same ptr and py fields. -/
def PyObject.clone (h : Heap) (o : PyObject) : Heap × PyObject :=
  (Py_INCREF h o.ptr, { ptr := o.ptr, py := o.py })

/-- PyObject.from_owned_ptr (object.rs lines 99-103): wraps the pointer
without any refcount traffic; ownership of the existing reference moves
into the handle.  The debug assertion (pointer non-null, refcount positive)
is a documented precondition, carried as hypotheses in the theorems. -/
def PyObject.from_owned_ptr (py : Python) (p : Ptr) : PyObject :=
  { py := py, ptr := p }

/-- PyObject.from_borrowed_ptr (object.rs lines 108-113): calls Py_INCREF
on the pointer, then wraps it. -/
def PyObject.from_borrowed_ptr (h : Heap) (py : Python) (p : Ptr) : Heap × PyObject :=
  (Py_INCREF h p, { py := py, ptr := p })

/-- PyObject.from_owned_ptr_opt (object.rs lines 118-125): none on the null
pointer, otherwise from_owned_ptr. -/
def PyObject.from_owned_ptr_opt (py : Python) (p : Ptr) : Option PyObject :=
  if p = 0 then none else some (PyObject.from_owned_ptr py p)

/-- PyObject.from_borrowed_ptr_opt (object.rs lines 129-135): none on the
null pointer with no refcount traffic, otherwise from_borrowed_ptr. -/
def PyObject.from_borrowed_ptr_opt (h : Heap) (py : Python) (p : Ptr) :
    Heap × Option PyObject :=
  if p = 0 then (h, none)
  else
    let r := PyObject.from_borrowed_ptr h py p
    (r.1, some r.2)

/-- PyObject.get_refcnt (object.rs lines 154-156): reads the current foreign
refcount of the referenced object. -/
def PyObject.get_refcnt (h : Heap) (o : PyObject) : Nat :=
  Py_REFCNT h (PyObject.as_ptr o)

/-- PartialEq impl for PyObject (object.rs lines 224-229): pointer identity
comparison, self.ptr == o.ptr; neither the session tokens nor any state of
the referenced objects is consulted. -/
def PyObject.eq (a b : PyObject) : Bool := a.ptr == b.ptr

/-- Modelled from the spec: the typed downcast error of the casting
protocol (module python is not in src), carrying the session token. -/
structure PythonObjectDowncastError where
  py : Python
  deriving DecidableEq

/-- PythonObject.as_object for PyObject (object.rs lines 36-38): the
identity; the by-reference form is modelled by value. -/
def PyObject.as_object (o : PyObject) : PyObject := o

/-- PythonObject.into_object for PyObject (object.rs lines 41-43). -/
def PyObject.into_object (o : PyObject) : PyObject := o

/-- PythonObject.unchecked_downcast_from for PyObject (object.rs lines
46-48). -/
def PyObject.unchecked_downcast_from (o : PyObject) : PyObject := o

/-- PythonObject.unchecked_downcast_borrow_from for PyObject (object.rs
lines 51-53), by-reference form modelled by value. -/
def PyObject.unchecked_downcast_borrow_from (o : PyObject) : PyObject := o

/-- PythonObjectWithCheckedDowncast.downcast_from for PyObject (object.rs
lines 63-65): always Ok, no refcount call on any path. -/
def PyObject.downcast_from (obj : PyObject) :
    Except PythonObjectDowncastError PyObject :=
  Except.ok obj

/-- PythonObjectWithCheckedDowncast.downcast_borrow_from for PyObject
(object.rs lines 68-70), by-reference form modelled by value. -/
def PyObject.downcast_borrow_from (obj : PyObject) :
    Except PythonObjectDowncastError PyObject :=
  Except.ok obj

/-- PyObject.unchecked_cast_into instantiated at T = PyObject (object.rs
lines 170-172): wrapper around unchecked_downcast_from. -/
def PyObject.unchecked_cast_into (o : PyObject) : PyObject :=
  PyObject.unchecked_downcast_from o

/-- PyObject.cast_into instantiated at T = PyObject (object.rs lines
178-180): wrapper around downcast_from. -/
def PyObject.cast_into (o : PyObject) :
    Except PythonObjectDowncastError PyObject :=
  PyObject.downcast_from o

/-- PyObject.unchecked_cast_as instantiated at T = PyObject (object.rs
lines 186-188): wrapper around unchecked_downcast_borrow_from. -/
def PyObject.unchecked_cast_as (o : PyObject) : PyObject :=
  PyObject.unchecked_downcast_borrow_from o

/-- PyObject.cast_as instantiated at T = PyObject (object.rs lines
194-196): wrapper around downcast_borrow_from. -/
def PyObject.cast_as (o : PyObject) :
    Except PythonObjectDowncastError PyObject :=
  PyObject.downcast_borrow_from o

/-- Modelled from the spec: the runtime-level error PyErr (module err is
not in src), opaque to this layer. -/
structure PyErr where
  code : Nat
  deriving DecidableEq

/-- The error type of a formatting operation, fmt::Error: a unit-like
marker with no payload. -/
structure FmtError where
  deriving DecidableEq

/-- Modelled from the spec: the external object protocol and conversion
protocol (modules objectprotocol and conversion are not in src) — the
informal-string form, the formal repr form, and native-string extraction,
each of which may fail with a runtime-level error. -/
structure ObjectProtocol where
  str : PyObject → Except PyErr PyObject
  repr : PyObject → Except PyErr PyObject
  extract_str : PyObject → Except PyErr String

/-- fmt::String impl for PyObject (object.rs lines 206-213): obtain the
informal-string form via the object protocol, extract it as a native
string, map either failure to fmt::Error; on success the string is written
to the formatter, modelled as the produced output. -/
def PyObject.fmt_string (op : ObjectProtocol) (o : PyObject) :
    Except FmtError String :=
  match Except.mapError (fun _ => FmtError.mk) (op.str o) with
  | Except.error e => Except.error e
  | Except.ok robj =>
    match Except.mapError (fun _ => FmtError.mk) (op.extract_str robj) with
    | Except.error e => Except.error e
    | Except.ok r => Except.ok r

/-- fmt::Show impl for PyObject (object.rs lines 215-222): same shape as
fmt::String but through the formal repr form. -/
def PyObject.fmt_show (op : ObjectProtocol) (o : PyObject) :
    Except FmtError String :=
  match Except.mapError (fun _ => FmtError.mk) (op.repr o) with
  | Except.error e => Except.error e
  | Except.ok robj =>
    match Except.mapError (fun _ => FmtError.mk) (op.extract_str robj) with
    | Except.error e => Except.error e
    | Except.ok r => Except.ok r

/-- Claim C1: dropping a handle with a non-null pointer and positive foreign
refcount decrements the count at its pointer exactly once and touches no
other count; the destructor leaves the value emptied, so a second implicit
destructor invocation on the dropped value changes no count; and after
steal_ptr (the caller re-assuming ownership) the heap is unchanged, so no
decrement is issued for the stolen handle. -/
theorem claim_C1_drop_exactly_once (h : Heap) (o : PyObject)
    (hnn : o.ptr ≠ 0) (hrc : 0 < h o.ptr) :
    ((PyObject.drop h o).1 o.ptr + 1 = h o.ptr) ∧
    (∀ q, q ≠ o.ptr → (PyObject.drop h o).1 q = h q) ∧
    ((PyObject.drop (PyObject.drop h o).1 (PyObject.drop h o).2).1
       = (PyObject.drop h o).1) ∧
    ((PyObject.steal_ptr h o).2 = h) := by
  refine ⟨?_, ?_, ?_, rfl⟩
  · simp only [PyObject.drop, Py_XDECREF, Py_DECREF, if_neg hnn, if_pos rfl]
    exact Nat.succ_pred_eq_of_pos hrc
  · intro q hq
    simp only [PyObject.drop, Py_XDECREF, Py_DECREF, if_neg hnn, if_neg hq]
  · simp [PyObject.drop, Py_XDECREF]

/-- Witness for claim C1 at a concrete heap and handle. -/
theorem claim_C1_drop_exactly_once_witness :
    ((PyObject.drop (fun _ => 2) ⟨3, ⟨0⟩⟩).1 3 + 1 = 2) :=
  (claim_C1_drop_exactly_once (fun _ => 2) ⟨3, ⟨0⟩⟩ (by decide) (by decide)).1

/-- Claim C2: for a non-null pointer p with positive refcount,
from_borrowed_ptr increments the count at p by exactly one, touches no
other count, and stores p in the handle; from_owned_ptr performs no
refcount traffic at all (it takes no heap) and stores p; dropping the
owned-constructed handle decrements at p exactly once, and dropping the
borrowed-constructed handle returns the count at p to its original value. -/
theorem claim_C2_constructors (h : Heap) (py : Python) (p : Ptr)
    (hnn : p ≠ 0) (hrc : 0 < h p) :
    ((PyObject.from_borrowed_ptr h py p).1 p = h p + 1) ∧
    (∀ q, q ≠ p → (PyObject.from_borrowed_ptr h py p).1 q = h q) ∧
    ((PyObject.from_borrowed_ptr h py p).2.ptr = p) ∧
    ((PyObject.from_owned_ptr py p).ptr = p) ∧
    ((PyObject.drop h (PyObject.from_owned_ptr py p)).1 p + 1 = h p) ∧
    ((PyObject.drop (PyObject.from_borrowed_ptr h py p).1
        (PyObject.from_borrowed_ptr h py p).2).1 p = h p) := by
  refine ⟨?_, ?_, rfl, rfl, ?_, ?_⟩
  · simp [PyObject.from_borrowed_ptr, Py_INCREF]
  · intro q hq
    simp only [PyObject.from_borrowed_ptr, Py_INCREF, if_neg hq]
  · simp only [PyObject.drop, PyObject.from_owned_ptr, Py_XDECREF, Py_DECREF,
      if_neg hnn, if_pos rfl]
    exact Nat.succ_pred_eq_of_pos hrc
  · simp [PyObject.drop, PyObject.from_borrowed_ptr, Py_XDECREF,
      Py_DECREF, Py_INCREF, if_neg hnn]

/-- Witness for claim C2 at a concrete heap, session and pointer. -/
theorem claim_C2_constructors_witness :
    ((PyObject.from_borrowed_ptr (fun _ => 1) ⟨0⟩ 5).1 5 = 2) :=
  (claim_C2_constructors (fun _ => 1) ⟨0⟩ 5 (by decide) (by decide)).1

/-- Claim C3: for a valid (non-null) pointer p, constructing through
from_borrowed_ptr and then dropping leaves every foreign refcount exactly
as it was; likewise cloning a live handle and dropping the clone restores
every count to its value from before the clone. -/
theorem claim_C3_net_zero (h : Heap) (py : Python) (p : Ptr) (o : PyObject)
    (hnn : p ≠ 0) (hon : o.ptr ≠ 0) :
    (∀ q, (PyObject.drop (PyObject.from_borrowed_ptr h py p).1
              (PyObject.from_borrowed_ptr h py p).2).1 q = h q) ∧
    (∀ q, (PyObject.drop (PyObject.clone h o).1 (PyObject.clone h o).2).1 q
            = h q) := by
  constructor
  · intro q
    by_cases hq : q = p
    · subst hq
      simp [PyObject.drop, PyObject.from_borrowed_ptr, Py_XDECREF,
        Py_DECREF, Py_INCREF, if_neg hnn]
    · simp only [PyObject.drop, PyObject.from_borrowed_ptr, Py_XDECREF,
        Py_DECREF, Py_INCREF, if_neg hnn, if_neg hq]
  · intro q
    by_cases hq : q = o.ptr
    · subst hq
      simp [PyObject.drop, PyObject.clone, Py_XDECREF, Py_DECREF,
        Py_INCREF, if_neg hon]
    · simp only [PyObject.drop, PyObject.clone, Py_XDECREF, Py_DECREF,
        Py_INCREF, if_neg hon, if_neg hq]

/-- Witness for claim C3 at a concrete heap, pointer and handle. -/
theorem claim_C3_net_zero_witness :
    (PyObject.drop (PyObject.from_borrowed_ptr (fun _ => 4) ⟨0⟩ 7).1
        (PyObject.from_borrowed_ptr (fun _ => 4) ⟨0⟩ 7).2).1 7 = 4 :=
  (claim_C3_net_zero (fun _ => 4) ⟨0⟩ 7 ⟨7, ⟨0⟩⟩ (by decide) (by decide)).1 7

/-- Claim C4: clone increments the foreign refcount at the pointer of the
handle by one, changes no other count, and yields a handle with the same
pointer and the same session token; as a total Lean function on every heap
and handle, it never fails. -/
theorem claim_C4_clone (h : Heap) (o : PyObject) :
    ((PyObject.clone h o).1 o.ptr = h o.ptr + 1) ∧
    (∀ q, q ≠ o.ptr → (PyObject.clone h o).1 q = h q) ∧
    ((PyObject.clone h o).2.ptr = o.ptr) ∧
    ((PyObject.clone h o).2.py = o.py) := by
  refine ⟨?_, ?_, rfl, rfl⟩
  · simp [PyObject.clone, Py_INCREF]
  · intro q hq
    simp only [PyObject.clone, Py_INCREF, if_neg hq]

/-- Witness for claim C4 at a concrete heap and handle. -/
theorem claim_C4_clone_witness :
    ((PyObject.clone (fun _ => 1) ⟨2, ⟨9⟩⟩).1 2 = 2) ∧
    ((PyObject.clone (fun _ => 1) ⟨2, ⟨9⟩⟩).2.py = ⟨9⟩) :=
  ⟨(claim_C4_clone (fun _ => 1) ⟨2, ⟨9⟩⟩).1,
   (claim_C4_clone (fun _ => 1) ⟨2, ⟨9⟩⟩).2.2.2⟩

/-- Claim C5: two handles compare equal exactly when their pointers are
identical; the comparison reads only the pointer fields, so it does not
depend on the session tokens stored in the handles (and, the comparison
taking no heap argument, not on any state of the referenced objects). -/
theorem claim_C5_identity_eq (a b : PyObject) :
    (PyObject.eq a b = true ↔ a.ptr = b.ptr) ∧
    (∀ x y : Python,
        PyObject.eq { ptr := a.ptr, py := x } { ptr := b.ptr, py := y }
          = PyObject.eq a b) := by
  constructor
  · simp [PyObject.eq]
  · intro x y
    simp [PyObject.eq]

/-- Claim C6: both upcasts to the generic handle are the identity, and the
checked downcasts targeting the generic variant always return Ok of the
very handle given — same pointer, no failure; none of these operations
takes or changes the refcount heap. -/
theorem claim_C6_generic_casts_total (o : PyObject) :
    PyObject.as_object o = o ∧
    PyObject.into_object o = o ∧
    PyObject.downcast_from o = Except.ok o ∧
    PyObject.downcast_borrow_from o = Except.ok o ∧
    (PyObject.as_object o).ptr = o.ptr := by
  exact ⟨rfl, rfl, rfl, rfl, rfl⟩

/-- Claim C7: the optional constructors return none exactly on the null
pointer, the borrowed optional constructor leaves the heap untouched in the
null case, and on a non-null pointer each returns some of precisely the
handle (and heap effect) of the corresponding non-optional constructor. -/
theorem claim_C7_opt_constructors (h : Heap) (py : Python) (p : Ptr) :
    (PyObject.from_owned_ptr_opt py p = none ↔ p = 0) ∧
    ((PyObject.from_borrowed_ptr_opt h py p).2 = none ↔ p = 0) ∧
    (p = 0 → (PyObject.from_borrowed_ptr_opt h py p).1 = h) ∧
    (p ≠ 0 → PyObject.from_owned_ptr_opt py p
               = some (PyObject.from_owned_ptr py p)) ∧
    (p ≠ 0 → PyObject.from_borrowed_ptr_opt h py p
               = ((PyObject.from_borrowed_ptr h py p).1,
                  some (PyObject.from_borrowed_ptr h py p).2)) := by
  refine ⟨?_, ?_, ?_, ?_, ?_⟩
  · by_cases hp : p = 0 <;>
      simp [PyObject.from_owned_ptr_opt, hp]
  · by_cases hp : p = 0 <;>
      simp [PyObject.from_borrowed_ptr_opt, hp]
  · intro hp
    simp [PyObject.from_borrowed_ptr_opt, hp]
  · intro hp
    simp [PyObject.from_owned_ptr_opt, hp]
  · intro hp
    simp [PyObject.from_borrowed_ptr_opt, hp]

/-- Witness for claim C7 at a concrete heap, both at the null pointer and
at a non-null pointer. -/
theorem claim_C7_opt_constructors_witness :
    (PyObject.from_owned_ptr_opt ⟨0⟩ 0 = none) ∧
    (PyObject.from_owned_ptr_opt ⟨0⟩ 6
       = some (PyObject.from_owned_ptr ⟨0⟩ 6)) ∧
    ((PyObject.from_borrowed_ptr_opt (fun _ => 1) ⟨0⟩ 0).1 2 = 1) :=
  ⟨(claim_C7_opt_constructors (fun _ => 1) ⟨0⟩ 0).1.mpr rfl,
   (claim_C7_opt_constructors (fun _ => 1) ⟨0⟩ 6).2.2.2.1 (by decide),
   congrFun ((claim_C7_opt_constructors (fun _ => 1) ⟨0⟩ 0).2.2.1 rfl) 2⟩

/-- Claim C8: display formatting goes through the informal-string form and
debug formatting through the formal repr form; when both steps succeed the
formatter receives exactly the extracted native string, and when either
obtaining the foreign string form or extracting it fails, the formatting
operation returns the formatting error — never a success value, in
particular never a silently empty output. -/
theorem claim_C8_formatting (op : ObjectProtocol) (o : PyObject) :
    (∀ s r, op.str o = Except.ok s → op.extract_str s = Except.ok r →
        PyObject.fmt_string op o = Except.ok r) ∧
    (∀ e, op.str o = Except.error e →
        PyObject.fmt_string op o = Except.error FmtError.mk) ∧
    (∀ s e, op.str o = Except.ok s → op.extract_str s = Except.error e →
        PyObject.fmt_string op o = Except.error FmtError.mk) ∧
    (∀ s r, op.repr o = Except.ok s → op.extract_str s = Except.ok r →
        PyObject.fmt_show op o = Except.ok r) ∧
    (∀ e, op.repr o = Except.error e →
        PyObject.fmt_show op o = Except.error FmtError.mk) ∧
    (∀ s e, op.repr o = Except.ok s → op.extract_str s = Except.error e →
        PyObject.fmt_show op o = Except.error FmtError.mk) := by
  refine ⟨?_, ?_, ?_, ?_, ?_, ?_⟩
  · intro s r hs hr
    simp [PyObject.fmt_string, hs, hr, Except.mapError]
  · intro e he
    simp [PyObject.fmt_string, he, Except.mapError]
  · intro s e hs he
    simp [PyObject.fmt_string, hs, he, Except.mapError]
  · intro s r hs hr
    simp [PyObject.fmt_show, hs, hr, Except.mapError]
  · intro e he
    simp [PyObject.fmt_show, he, Except.mapError]
  · intro s e hs he
    simp [PyObject.fmt_show, hs, he, Except.mapError]

/-- Witness for claim C8 with a concrete protocol whose informal-string
form succeeds and whose repr form fails. -/
theorem claim_C8_formatting_witness :
    (PyObject.fmt_string
        ⟨fun _ => Except.ok ⟨4, ⟨0⟩⟩, fun _ => Except.error ⟨1⟩,
         fun _ => Except.ok ("four")⟩ ⟨4, ⟨0⟩⟩
       = Except.ok ("four")) ∧
    (PyObject.fmt_show
        ⟨fun _ => Except.ok ⟨4, ⟨0⟩⟩, fun _ => Except.error ⟨1⟩,
         fun _ => Except.ok ("four")⟩ ⟨4, ⟨0⟩⟩
       = Except.error FmtError.mk) :=
  ⟨(claim_C8_formatting
      ⟨fun _ => Except.ok ⟨4, ⟨0⟩⟩, fun _ => Except.error ⟨1⟩,
       fun _ => Except.ok ("four")⟩ ⟨4, ⟨0⟩⟩).1 ⟨4, ⟨0⟩⟩ ("four") rfl rfl,
   (claim_C8_formatting
      ⟨fun _ => Except.ok ⟨4, ⟨0⟩⟩, fun _ => Except.error ⟨1⟩,
       fun _ => Except.ok ("four")⟩ ⟨4, ⟨0⟩⟩).2.2.2.2.1 ⟨1⟩ rfl⟩

/-- Claim C10: at the generic variant the checked and unchecked cast paths
agree — cast_into returns Ok of exactly the value unchecked_cast_into
returns, cast_as returns Ok of exactly the value unchecked_cast_as
returns, and both unchecked paths are the identity. -/
theorem claim_C10_checked_unchecked_agree (o : PyObject) :
    PyObject.cast_into o = Except.ok (PyObject.unchecked_cast_into o) ∧
    PyObject.unchecked_cast_into o = o ∧
    PyObject.cast_as o = Except.ok (PyObject.unchecked_cast_as o) ∧
    PyObject.unchecked_cast_as o = o := by
  exact ⟨rfl, rfl, rfl, rfl⟩

end PyO3
